import Mathlib

/-!
Verification of the concurrent retrieval pipeline in `lib/vt.py`
(class `VirusTotal_Search`).

The Python source is shallowly embedded as executable Lean definitions:

* pure string processing (the hash-shape filter of `download_samples`) is
  translated directly on `List Char`;
* each worker coroutine (`get_sample_info`, `get_sample`,
  `get_behavior_report`) and the driver `search` is translated as a
  function from queue contents, a filesystem model and an abstract
  Remote-Catalog response function to a trace of observable events
  (queue claims, completion marks, cache checks, network fetches, file
  writes, task spawns and cancellations) together with the resulting
  filesystem;
* the filesystem is a list of existing files, each tagged with the
  directory it lives in and a marker recording whether the download that
  produced it completed.

Remote-Catalog outcomes are passed in as response functions, so a theorem
quantified over them covers every behavior of the external service.
-/

namespace VtSearch

/-- Characters removed by the call `data.strip("\n ")` in
`download_samples` (line 471 of vt.py): newline and space. -/
def isStripChar (c : Char) : Bool := c == '\n' || c == ' '

/-- Python `data.strip("\n ")`: removes the strip characters from BOTH
ends of the string (leading and trailing). -/
def pyStrip (s : List Char) : List Char :=
  ((s.dropWhile isStripChar).reverse.dropWhile isStripChar).reverse

/-- The codepoint ranges of the Unicode decimal-digit category Nd
(Unicode 14.0 database): in a Python str pattern, the class escape for
digits matches exactly the characters of this category — the ASCII
digits 0-9 and every other script\'s decimal digits. -/
def ndRanges : List (Nat × Nat) := [
  (0x30, 0x39), (0x660, 0x669), (0x6F0, 0x6F9), (0x7C0, 0x7C9),
  (0x966, 0x96F), (0x9E6, 0x9EF), (0xA66, 0xA6F), (0xAE6, 0xAEF),
  (0xB66, 0xB6F), (0xBE6, 0xBEF), (0xC66, 0xC6F), (0xCE6, 0xCEF),
  (0xD66, 0xD6F), (0xDE6, 0xDEF), (0xE50, 0xE59), (0xED0, 0xED9),
  (0xF20, 0xF29), (0x1040, 0x1049), (0x1090, 0x1099), (0x17E0, 0x17E9),
  (0x1810, 0x1819), (0x1946, 0x194F), (0x19D0, 0x19D9), (0x1A80, 0x1A89),
  (0x1A90, 0x1A99), (0x1B50, 0x1B59), (0x1BB0, 0x1BB9), (0x1C40, 0x1C49),
  (0x1C50, 0x1C59), (0xA620, 0xA629), (0xA8D0, 0xA8D9), (0xA900, 0xA909),
  (0xA9D0, 0xA9D9), (0xA9F0, 0xA9F9), (0xAA50, 0xAA59), (0xABF0, 0xABF9),
  (0xFF10, 0xFF19), (0x104A0, 0x104A9), (0x10D30, 0x10D39),
  (0x11066, 0x1106F), (0x110F0, 0x110F9), (0x11136, 0x1113F),
  (0x111D0, 0x111D9), (0x112F0, 0x112F9), (0x11450, 0x11459),
  (0x114D0, 0x114D9), (0x11650, 0x11659), (0x116C0, 0x116C9),
  (0x11730, 0x11739), (0x118E0, 0x118E9), (0x11950, 0x11959),
  (0x11C50, 0x11C59), (0x11D50, 0x11D59), (0x11DA0, 0x11DA9),
  (0x16A60, 0x16A69), (0x16AC0, 0x16AC9), (0x16B50, 0x16B59),
  (0x1D7CE, 0x1D7FF), (0x1E140, 0x1E149), (0x1E2F0, 0x1E2F9),
  (0x1E950, 0x1E959), (0x1FBF0, 0x1FBF9)]

/-- Python\'s digit class escape in a str pattern: any Unicode decimal
digit (category Nd), not only ASCII 0-9. -/
def isHashDigit (c : Char) : Bool :=
  ndRanges.any (fun p => p.1 ≤ c.toNat && c.toNat ≤ p.2)

/-- The character class of the three compiled patterns in
`download_samples` (lines 463-465): the letters a-f and A-F, or a
Unicode decimal digit. -/
def isHashChar (c : Char) : Bool :=
  isHashDigit c || ('a' ≤ c && c ≤ 'f') || ('A' ≤ c && c ≤ 'F')

/-- Python `md5.match(data)` and its two siblings: `re.match` anchors
at the start of the string only, so the pattern of the class repeated
`n` times succeeds iff the string has at least `n` characters and its
first `n` characters are in the class.  It does NOT require the match
to span the whole string. -/
def reMatchClass (n : Nat) (s : List Char) : Bool :=
  decide (n ≤ s.length) && (s.take n).all isHashChar

/-- The acceptance test on line 472 of vt.py:
`md5.match(data) or sha1.match(data) or sha256.match(data)`. -/
def acceptsStr (d : List Char) : Bool :=
  reMatchClass 32 d || reMatchClass 40 d || reMatchClass 64 d

/-- Whether a raw input line is accepted by `download_samples`:
the line is first stripped (both ends) and then matched. -/
def acceptsLine (l : List Char) : Bool := acceptsStr (pyStrip l)

/-- The enqueue phase of `download_samples` (lines 467-477): iterate
over the lines, strip each, test the three patterns, and put the
stripped string into the info queue iff it has not been seen before
(`if data not in samples`).  Returns the list of items put into the
info queue, in order.  `seen` is the accumulator list `samples`. -/
def enqueue_go : List (List Char) → List (List Char) → List (List Char)
  | [], _ => []
  | l :: ls, seen =>
    let d := pyStrip l
    if acceptsStr d then
      if d ∈ seen then enqueue_go ls seen
      else d :: enqueue_go ls (seen ++ [d])
    else enqueue_go ls seen

/-- All items put into the info queue by `download_samples` for a given
input file (list of lines), in queue order. -/
def infoEnqueued (lines : List (List Char)) : List (List Char) :=
  enqueue_go lines []

/-- The stripped, accepted identifiers of the input file, in file order,
with duplicates retained. -/
def acceptedSeq (lines : List (List Char)) : List (List Char) :=
  (lines.map pyStrip).filter acceptsStr

/-- Specification-side operation: keep the first occurrence of every
element, erase all later duplicates (the order-of-first-occurrence
deduplication the spec describes). -/
def dedupFirst {α : Type} [DecidableEq α] : List α → List α
  | [] => []
  | a :: l => a :: dedupFirst (l.filter (fun x => decide (x ≠ a)))
termination_by l => l.length
decreasing_by
  simp only [List.length_cons]
  exact Nat.lt_succ_of_le (List.length_filter_le _ _)

lemma mem_dedupFirst {α : Type} [DecidableEq α] (x : α) :
    ∀ (l : List α), x ∈ dedupFirst l ↔ x ∈ l
  | [] => by simp [dedupFirst]
  | a :: l => by
    rw [dedupFirst]
    by_cases hx : x = a
    · simp [hx]
    · simp only [List.mem_cons, hx, false_or]
      rw [mem_dedupFirst x (l.filter (fun y => decide (y ≠ a)))]
      simp [List.mem_filter, hx]
termination_by l => l.length
decreasing_by
  simp only [List.length_cons]
  exact Nat.lt_succ_of_le (List.length_filter_le _ _)

lemma nodup_dedupFirst {α : Type} [DecidableEq α] :
    ∀ (l : List α), (dedupFirst l).Nodup
  | [] => by simp [dedupFirst]
  | a :: l => by
    rw [dedupFirst]
    refine List.nodup_cons.mpr ⟨?_, nodup_dedupFirst _⟩
    rw [mem_dedupFirst]
    simp
termination_by l => l.length
decreasing_by
  simp only [List.length_cons]
  exact Nat.lt_succ_of_le (List.length_filter_le _ _)

/-- The accumulator-based enqueue loop of the source equals the
specification-side first-occurrence deduplication, applied to the
accepted identifiers not already seen. -/
lemma enqueue_go_eq :
    ∀ (ls : List (List Char)) (seen : List (List Char)),
      enqueue_go ls seen
        = dedupFirst ((acceptedSeq ls).filter (fun x => decide (x ∉ seen)))
  | [], _ => by simp [enqueue_go, acceptedSeq, dedupFirst]
  | l :: ls, seen => by
    rw [enqueue_go]
    simp only [acceptedSeq, List.map_cons, List.filter_cons]
    by_cases ha : acceptsStr (pyStrip l)
    · simp only [ha, if_true, List.filter_cons]
      by_cases hs : pyStrip l ∈ seen
      · simp only [hs, if_true, decide_not, hs, decide_True, Bool.not_true,
          if_false]
        rw [enqueue_go_eq ls seen]
        simp [acceptedSeq]
      · simp only [hs, if_false, decide_not, decide_False, Bool.not_false,
          if_true]
        rw [dedupFirst, enqueue_go_eq ls (seen ++ [pyStrip l])]
        congr 1
        rw [List.filter_filter]
        simp only [acceptedSeq]
        congr 1
        apply List.filter_congr
        intro x _
        by_cases h1 : x ∈ seen <;> by_cases h2 : x = pyStrip l <;>
          simp [h1, h2]
    · simp only [ha, if_false]
      rw [enqueue_go_eq ls seen]
      simp [acceptedSeq, ha]

lemma infoEnqueued_eq (lines : List (List Char)) :
    infoEnqueued lines = dedupFirst (acceptedSeq lines) := by
  rw [infoEnqueued, enqueue_go_eq]
  congr 1
  apply List.filter_eq_self.mpr
  intro x _
  simp

/-- Every item put into the info queue passes the acceptance test. -/
lemma mem_infoEnqueued_accepts {x : List Char} {lines : List (List Char)}
    (h : x ∈ infoEnqueued lines) : acceptsStr x = true := by
  rw [infoEnqueued_eq, mem_dedupFirst] at h
  exact (List.mem_filter.mp h).2

/-- A longer hex-prefix match implies a shorter one. -/
lemma reMatchClass_of_le {m n : Nat} (hmn : m ≤ n) {s : List Char}
    (h : reMatchClass n s = true) : reMatchClass m s = true := by
  simp only [reMatchClass, Bool.and_eq_true, decide_eq_true_eq,
    List.all_eq_true] at h ⊢
  refine ⟨le_trans hmn h.1, fun x hx => ?_⟩
  apply h.2
  have : s.take m = (s.take n).take m := by
    rw [List.take_take, Nat.min_eq_left hmn]
  rw [this] at hx
  exact List.take_subset _ _ hx

/-- The acceptance test of line 472 is equivalent to: the stripped line
has at least 32 characters and its first 32 characters are hexadecimal
(the three patterns anchor only at the start of the string). -/
lemma acceptsStr_iff (d : List Char) :
    acceptsStr d = true
      ↔ 32 ≤ d.length ∧ (d.take 32).all isHashChar = true := by
  constructor
  · intro h
    simp only [acceptsStr, Bool.or_eq_true] at h
    have h32 : reMatchClass 32 d = true := by
      rcases h with (h | h) | h
      · exact h
      · exact reMatchClass_of_le (by norm_num) h
      · exact reMatchClass_of_le (by norm_num) h
    simpa [reMatchClass, Bool.and_eq_true, decide_eq_true_eq] using h32
  · intro ⟨h1, h2⟩
    simp only [acceptsStr, Bool.or_eq_true]
    left
    simp [reMatchClass, h1, h2]

/-! ## The event-trace model of the pipeline

Identifiers held in the three queues are modelled as strings; the
resolution step `sample if isinstance(sample, str) else sample.id`
collapses to the identity because both forms carry the same identifier.
-/

abbrev Ident := String

/-- The configuration-driven target directories of the pipeline. -/
inductive Dir
  | samplesDir
  | reportsDir
  | infoDir
deriving DecidableEq, Repr

/-- The three asyncio queues. -/
inductive QueueId
  | infoQ
  | sampleQ
  | behaviorQ
deriving DecidableEq, Repr

/-- Worker roles of the pipeline. -/
inductive Role
  | infoRole
  | sampleRole
  | behaviorRole
deriving DecidableEq, Repr

/-- Tasks created through asyncio.create_task. -/
inductive TaskRef
  | workerTask (r : Role) (n : Nat)
  | heartbeatTask
deriving DecidableEq, Repr

/-- Marker for the content of a file on disk: `full` for a completely
written payload, `empty` for a file that was created but whose download
did not complete. -/
inductive FContent
  | full
  | empty
deriving DecidableEq, Repr

/-- Filesystem model: the list of existing files, each keyed by
directory and identifier and carrying a content marker. -/
structure Fs where
  files : List (Dir × Ident × FContent)
deriving DecidableEq, Repr

/-- `os.path.isfile` on the path dir/ident. -/
def Fs.isFile (fs : Fs) (d : Dir) (i : Ident) : Bool :=
  fs.files.any (fun e => e.1 == d && e.2.1 == i)

/-- Creating (or overwriting) the file dir/ident with marker `c`. -/
def Fs.add (fs : Fs) (d : Dir) (i : Ident) (c : FContent) : Fs :=
  ⟨(d, i, c) :: fs.files⟩

/-- The content marker currently visible at dir/ident. -/
def Fs.content (fs : Fs) (d : Dir) (i : Ident) : Option FContent :=
  (fs.files.find? (fun e => e.1 == d && e.2.1 == i)).map (fun e => e.2.2)

/-- Observable events of the pipeline, in program order. -/
inductive Event
  | heartbeatStart
  | emptyTest (q : QueueId) (e : Bool)
  | getItem (q : QueueId) (i : Ident)
  | taskDone (q : QueueId) (i : Ident)
  | putItem (q : QueueId) (i : Ident)
  | cacheCheck (d : Dir) (i : Ident) (hit : Bool)
  | objectFetch (i : Ident)
  | behaviorFetch (i : Ident)
  | downloadFetch (i : Ident)
  | openWrite (d : Dir) (i : Ident)
  | logArtifact (i : Ident)
  | renderInfo (i : Ident)
  | parseReport (i : Ident)
  | spawnTask (t : TaskRef)
  | cancelTask (t : TaskRef)
  | joinQueue (q : QueueId)
deriving DecidableEq, Repr

/-- Error codes of the Remote Catalog, grouped exactly as the source
code groups them in its `err.code in [...]` chains: the four
authentication/authorization/account codes, the two quota codes, the
not-found code, anything else. -/
inductive ApiCode
  | notFound
  | authFail
  | quotaFail
  | otherErr
deriving DecidableEq, Repr

/-- The Fatal class of the spec: authentication/authorization/account
failures and quota exhaustion. -/
def ApiCode.isFatal : ApiCode → Bool
  | .authFail => true
  | .quotaFail => true
  | _ => false

/-- Outcome of `client.download_file_async` (together with the enclosing
`open`): success, an uncaught `vt.error.APIError`, or an `IOError`
(which the source catches). -/
inductive DlOutcome
  | ok
  | apiErr
  | ioErr
deriving DecidableEq, Repr

/-- Outcome of `client.get_object_async` in `get_sample_info`. -/
inductive InfoResp
  | okObj
  | apiErr (c : ApiCode)
deriving DecidableEq, Repr

/-- Outcome of `client.get_json_async` in `execute_request`: a valid
report, a response without a data field, or an `vt.error.APIError`
carrying a code. -/
inductive BehResp
  | okReport
  | noData
  | apiErr (c : ApiCode)
deriving DecidableEq, Repr

/-- `execute_request` (lines 370-391): returns the data field on
success and `None` both when the response has no data field and on
EVERY `vt.error.APIError`, whatever its code — fatal codes included. -/
def execute_request : BehResp → Option Unit
  | .okReport => some ()
  | .noData => none
  | .apiErr _ => none

/-- Result of one worker-loop iteration: the events it emitted, the
filesystem afterwards, and whether an uncaught exception aborted the
worker coroutine. -/
structure StepOut where
  events : List Event
  fs : Fs
  aborted : Bool
deriving Repr

/-- Result of a whole worker-loop run. -/
structure RunOut where
  trace : List Event
  fs : Fs
deriving Repr

/-- One iteration body of `get_sample` (lines 557-581), after the item
has been claimed: check `os.path.isfile(samples_dir/id)`; on a hit log
and mark done; on a miss open the file (creating it) and download into
it.  A successful download marks done; an `IOError` is caught, logged
and marked done; a `vt.error.APIError` raised by
`download_file_async` is NOT caught — the `with open` block has
already created the file, which remains behind, the item is never
marked done, and the exception propagates out of the coroutine. -/
def get_sample_item (fs : Fs) (api : Ident → DlOutcome) (i : Ident) :
    StepOut :=
  if fs.isFile .samplesDir i then
    ⟨[.cacheCheck .samplesDir i true, .taskDone .sampleQ i], fs, false⟩
  else
    match api i with
    | .ok =>
      ⟨[.cacheCheck .samplesDir i false, .openWrite .samplesDir i,
        .downloadFetch i, .taskDone .sampleQ i],
        fs.add .samplesDir i .full, false⟩
    | .apiErr =>
      ⟨[.cacheCheck .samplesDir i false, .openWrite .samplesDir i,
        .downloadFetch i],
        fs.add .samplesDir i .empty, true⟩
    | .ioErr =>
      ⟨[.cacheCheck .samplesDir i false, .taskDone .sampleQ i], fs, false⟩

/-- The loop of `get_sample` (lines 556-581):
`while not self.sample_queue.empty(): sample_id = await
self.sample_queue.get(); ...` — an emptiness test followed by a
separate get.  The queue is the list of currently pending items. -/
def get_sample (fs : Fs) (api : Ident → DlOutcome) :
    List Ident → RunOut
  | [] => ⟨[.emptyTest .sampleQ true], fs⟩
  | i :: rest =>
    let s := get_sample_item fs api i
    let pre := .emptyTest .sampleQ false :: .getItem .sampleQ i :: s.events
    if s.aborted then ⟨pre, s.fs⟩
    else
      let r := get_sample s.fs api rest
      ⟨pre ++ r.trace, r.fs⟩

/-- One iteration body of `get_behavior_report` (lines 414-454), after
the item has been claimed.  `api` gives the Remote-Catalog response for
the behavior fetch, `wr` whether writing the report file succeeds
(`IOError` from `open`/`json.dump` is caught), `rd` whether reading a
cached report back succeeds (`IOError`/`JSONDecodeError` is caught).
On a cache hit the file is read back and handed to the Sandbox parsing
step; on a miss `execute_request` is called — which returns `None` for
every `vt.error.APIError` — and a `None` result is logged and skipped.
Every branch ends in `task_done`. -/
def get_behavior_item (fs : Fs) (api : Ident → BehResp)
    (wr rd : Ident → Bool) (i : Ident) : StepOut :=
  if fs.isFile .reportsDir i then
    if rd i then
      ⟨[.cacheCheck .reportsDir i true, .parseReport i,
        .taskDone .behaviorQ i], fs, false⟩
    else
      ⟨[.cacheCheck .reportsDir i true, .taskDone .behaviorQ i], fs, false⟩
  else
    match execute_request (api i) with
    | none =>
      ⟨[.cacheCheck .reportsDir i false, .behaviorFetch i,
        .taskDone .behaviorQ i], fs, false⟩
    | some _ =>
      if wr i then
        ⟨[.cacheCheck .reportsDir i false, .behaviorFetch i,
          .openWrite .reportsDir i, .parseReport i,
          .taskDone .behaviorQ i], fs.add .reportsDir i .full, false⟩
      else
        ⟨[.cacheCheck .reportsDir i false, .behaviorFetch i,
          .openWrite .reportsDir i, .taskDone .behaviorQ i],
          fs.add .reportsDir i .empty, false⟩

/-- The loop of `get_behavior_report` (lines 412-454):
`while not self.behavior_queue.empty(): sample = await
self.behavior_queue.get(); ...`.  No exception escapes the body, so the
loop always runs the queue to exhaustion. -/
def get_behavior_report (fs : Fs) (api : Ident → BehResp)
    (wr rd : Ident → Bool) : List Ident → RunOut
  | [] => ⟨[.emptyTest .behaviorQ true], fs⟩
  | i :: rest =>
    let s := get_behavior_item fs api wr rd i
    let r := get_behavior_report s.fs api wr rd rest
    ⟨.emptyTest .behaviorQ false :: .getItem .behaviorQ i :: s.events
       ++ r.trace, r.fs⟩

/-- The loop of `get_sample_info` (lines 510-543): claim an identifier,
ALWAYS perform the object lookup (the source comments that this call
should always be performed), then render the summary — which writes
info_dir/id only if it does not exist yet — and collect the resolved
object.  On `NotFoundError` the body logs a warning and executes
`continue`, which jumps past `info_queue.task_done()`: the claimed item
is never marked done.  On every other `vt.error.APIError` the body
drains the remaining queue (get + task_done each item) and then marks
the failing item done; the outer loop then finds the queue empty and
returns.  The second component is the `samples` list the coroutine
returns. -/
def get_sample_info (fs : Fs) (api : Ident → InfoResp) :
    List Ident → RunOut × List Ident
  | [] => (⟨[.emptyTest .infoQ true], fs⟩, [])
  | i :: rest =>
    let pre := [.emptyTest .infoQ false, .getItem .infoQ i, .objectFetch i]
    match api i with
    | .okObj =>
      let hit := fs.isFile .infoDir i
      let fs1 := if hit then fs else fs.add .infoDir i .full
      let r := get_sample_info fs1 api rest
      (⟨pre ++ [.cacheCheck .infoDir i hit, .renderInfo i,
          .taskDone .infoQ i] ++ r.1.trace, r.1.fs⟩,
        i :: r.2)
    | .apiErr .notFound =>
      let r := get_sample_info fs api rest
      (⟨pre ++ r.1.trace, r.1.fs⟩, r.2)
    | .apiErr _ =>
      let drain := rest.foldr
        (fun j acc => .getItem .infoQ j :: .taskDone .infoQ j :: acc) []
      (⟨pre ++ drain ++ [.taskDone .infoQ i, .emptyTest .infoQ true], fs⟩,
        [])

/-! ## The Search Driver -/

/-- Artifact kinds distinguished by the driver. -/
inductive ObjKind
  | fileKind
  | urlKind
  | domainKind
  | otherKind
deriving DecidableEq, Repr

/-- A search result object. -/
structure SearchObj where
  kind : ObjKind
  oid : Ident
deriving DecidableEq, Repr

/-- The configuration flags consumed by `search`. -/
structure SearchCfg where
  dlSamples : Bool
  dlBehavior : Bool
  workers : Nat
deriving DecidableEq, Repr

/-- The body of the `async for` loop in `search` (lines 329-347):
unknown kinds are logged and skipped; otherwise the artifact log line is
written, File objects are put into the sample/behavior queues according
to the configuration flags, and the summary is rendered. -/
def searchIterObj (cfg : SearchCfg) (o : SearchObj) : List Event :=
  if o.kind == .otherKind then []
  else
    [.logArtifact o.oid]
      ++ (if o.kind == .fileKind && cfg.dlSamples then
            [.putItem .sampleQ o.oid] else [])
      ++ (if o.kind == .fileKind && cfg.dlBehavior then
            [.putItem .behaviorQ o.oid] else [])
      ++ [.renderInfo o.oid]

/-- Events of the whole result iteration. -/
def searchIter (cfg : SearchCfg) (results : List SearchObj) : List Event :=
  results.foldr (fun o acc => searchIterObj cfg o ++ acc) []

/-- The worker tasks created by the loop on lines 360-362, for the
given numbers: per worker index, a behavior task if configured then a
sample task if configured.  This list is also the `tasks` list that is
later cancelled — the heartbeat task is NOT in it. -/
def workerTasksFor (cfg : SearchCfg) (ns : List Nat) : List TaskRef :=
  ns.foldr (fun n acc =>
    (if cfg.dlBehavior then [TaskRef.workerTask .behaviorRole n] else [])
      ++ (if cfg.dlSamples then [TaskRef.workerTask .sampleRole n] else [])
      ++ acc) []

/-- The `tasks` list of `search`. -/
def searchWorkerTasks (cfg : SearchCfg) : List TaskRef :=
  workerTasksFor cfg (List.range cfg.workers)

/-- The driver `search` (lines 314-367): it FIRST creates the heartbeat
task (line 325, before the iteration; the returned task handle is
discarded), then iterates the result set.  `stopErr` is the
`vt.error.APIError` the iterator raises after yielding `results`, if
any: in that case the handler logs and executes `return None` — no
worker is spawned.  Otherwise the worker tasks are spawned, both queues
are joined, and the tasks in `tasks` — the worker tasks only — are
cancelled. -/
def search (cfg : SearchCfg) (results : List SearchObj)
    (stopErr : Option ApiCode) : List Event :=
  .heartbeatStart ::
    searchIter cfg results
      ++ (match stopErr with
          | some _ => []
          | none =>
            (searchWorkerTasks cfg).map .spawnTask
              ++ [.joinQueue .behaviorQ, .joinQueue .sampleQ]
              ++ (searchWorkerTasks cfg).map .cancelTask)

/-! ## Concrete inputs used by counterexamples and witnesses -/

def idA : Ident := "a"

def idB : Ident := "b"

def idX : Ident := "x"

/-- A line consisting of 32 hexadecimal characters followed by two
non-hexadecimal characters. -/
def c4Line : List Char := "00000000000000000000000000000000zz".toList

/-- A line of 32 Arabic-Indic digits (U+0660): each is a Unicode
decimal digit, so the line matches the 32-repetition pattern, but none
of its characters is a hexadecimal character. -/
def arLine : List Char := List.replicate 32 '٠'

/-- A hexadecimal character in the ordinary (claim-side) sense: ASCII
0-9, a-f, A-F. -/
def specHexChar (c : Char) : Bool :=
  c.isDigit || ('a' ≤ c && c ≤ 'f') || ('A' ≤ c && c ≤ 'F')

/-- Claim-side predicate of C4, following the claim\'s words: after
stripping the trailing newline and spaces, the line consists of exactly
32, 40, or 64 hexadecimal characters. -/
def specAcceptsC4 (l : List Char) : Bool :=
  let d := (l.reverse.dropWhile isStripChar).reverse
  (d.length == 32 || d.length == 40 || d.length == 64) && d.all specHexChar

def c1InfoApi : Ident → InfoResp := fun _ => .apiErr .notFound

def c1DlApi : Ident → DlOutcome := fun _ => .apiErr

def c3Api : Ident → BehResp :=
  fun i => if i == idA then .apiErr .authFail else .okReport

def allTrue : Ident → Bool := fun _ => true

def okDlApi : Ident → DlOutcome := fun _ => .ok

def okBehApi : Ident → BehResp := fun _ => .okReport

def okInfoApi : Ident → InfoResp := fun _ => .okObj

/-- A filesystem already holding the summary report info_dir/a. -/
def c7Fs : Fs := ⟨[(.infoDir, idA, .full)]⟩

def c6Cfg : SearchCfg := ⟨true, false, 1⟩

def c6Obj : SearchObj := ⟨.fileKind, idA⟩

/-! ## Helper lemmas -/

/-- Events that the result iteration of `search` can emit. -/
def Event.isIterEvent : Event → Bool
  | .logArtifact _ => true
  | .putItem _ _ => true
  | .renderInfo _ => true
  | _ => false

/-- Events counted for the behavior worker. -/
def Event.isBehaviorGet : Event → Bool
  | .getItem .behaviorQ _ => true
  | _ => false

def Event.isBehaviorDone : Event → Bool
  | .taskDone .behaviorQ _ => true
  | _ => false

def Event.isObjFetch : Event → Bool
  | .objectFetch _ => true
  | _ => false

lemma searchIterObj_all (cfg : SearchCfg) (o : SearchObj) :
    (searchIterObj cfg o).all Event.isIterEvent = true := by
  rw [searchIterObj]
  split
  · rfl
  · split <;> split <;> simp [Event.isIterEvent]

lemma mem_searchIterObj_shape {cfg : SearchCfg} {o : SearchObj} {e : Event}
    (h : e ∈ searchIterObj cfg o) : e.isIterEvent = true :=
  List.all_eq_true.mp (searchIterObj_all cfg o) e h

lemma mem_searchIter_shape {cfg : SearchCfg} :
    ∀ {results : List SearchObj} {e : Event},
      e ∈ searchIter cfg results → e.isIterEvent = true := by
  intro results
  induction results with
  | nil => intro e h; simp [searchIter] at h
  | cons o os ih =>
    intro e h
    rw [searchIter, List.foldr_cons, List.mem_append] at h
    rcases h with h | h
    · exact mem_searchIterObj_shape h
    · exact ih h

lemma heartbeat_not_mem_workerTasksFor (cfg : SearchCfg) :
    ∀ ns : List Nat, TaskRef.heartbeatTask ∉ workerTasksFor cfg ns
  | [] => by simp [workerTasksFor]
  | n :: ns => by
    rw [workerTasksFor, List.foldr_cons]
    intro h
    rw [List.mem_append] at h
    rcases h with h | h
    · rw [List.mem_append] at h
      rcases h with h | h <;> split at h <;> simp at h
    · exact heartbeat_not_mem_workerTasksFor cfg ns h

lemma Fs.isFile_add {fs : Fs} {d : Dir} {j : Ident} (h : fs.isFile d j = true)
    (d' : Dir) (i : Ident) (c : FContent) :
    (fs.add d' i c).isFile d j = true := by
  simp only [Fs.isFile, Fs.add, List.any_cons] at h ⊢
  simp [h]

/-- Existing files survive one iteration of the sample worker. -/
lemma get_sample_item_mono {fs : Fs} {api : Ident → DlOutcome} {i : Ident}
    {d : Dir} {j : Ident} (h : fs.isFile d j = true) :
    (get_sample_item fs api i).fs.isFile d j = true := by
  rw [get_sample_item]
  split
  · exact h
  · cases api i
    · exact Fs.isFile_add h _ _ _
    · exact Fs.isFile_add h _ _ _
    · exact h

/-- Existing files survive one iteration of the behavior worker. -/
lemma get_behavior_item_mono {fs : Fs} {api : Ident → BehResp}
    {wr rd : Ident → Bool} {i : Ident} {d : Dir} {j : Ident}
    (h : fs.isFile d j = true) :
    (get_behavior_item fs api wr rd i).fs.isFile d j = true := by
  rw [get_behavior_item]
  split
  · split <;> exact h
  · cases api i
    · simp only [execute_request]
      split
      · exact Fs.isFile_add h _ _ _
      · exact Fs.isFile_add h _ _ _
    · exact h
    · exact h

/-- If samples_dir/i is already on disk when the sample worker starts,
no iteration of its loop ever issues a download for i. -/
lemma downloadFetch_not_mem_get_sample {api : Ident → DlOutcome} {i : Ident} :
    ∀ (qs : List Ident) (fs : Fs), fs.isFile .samplesDir i = true →
      Event.downloadFetch i ∉ (get_sample fs api qs).trace
  | [], fs, h => by simp [get_sample]
  | j :: rest, fs, h => by
    by_cases hj : fs.isFile .samplesDir j = true
    · have IH := @downloadFetch_not_mem_get_sample api i rest fs h
      simp only [get_sample, get_sample_item, hj, if_true]
      simp [IH]
    · have hij : i ≠ j := by
        intro hh; rw [hh] at h; exact hj h
      rw [Bool.not_eq_true] at hj
      cases hapi : api j
      · have IH := @downloadFetch_not_mem_get_sample api i rest
          (fs.add .samplesDir j .full) (Fs.isFile_add h _ _ _)
        simp only [get_sample, get_sample_item, hj, Bool.false_eq_true,
          if_false, hapi]
        simp [IH, hij]
      · simp only [get_sample, get_sample_item, hj, Bool.false_eq_true,
          if_false, hapi]
        simp [hij]
      · have IH := @downloadFetch_not_mem_get_sample api i rest fs h
        simp only [get_sample, get_sample_item, hj, Bool.false_eq_true,
          if_false, hapi]
        simp [IH, hij]

/-- If reports_dir/i is already on disk when the behavior worker
starts, no iteration of its loop ever issues a behavior fetch for i. -/
lemma behaviorFetch_not_mem_get_behavior {api : Ident → BehResp}
    {wr rd : Ident → Bool} {i : Ident} :
    ∀ (qs : List Ident) (fs : Fs), fs.isFile .reportsDir i = true →
      Event.behaviorFetch i ∉ (get_behavior_report fs api wr rd qs).trace
  | [], fs, h => by simp [get_behavior_report]
  | j :: rest, fs, h => by
    have hmono : (get_behavior_item fs api wr rd j).fs.isFile .reportsDir i
        = true := get_behavior_item_mono h
    have IH := @behaviorFetch_not_mem_get_behavior api wr rd i rest
      (get_behavior_item fs api wr rd j).fs hmono
    by_cases hj : fs.isFile .reportsDir j = true
    · simp only [get_behavior_report, get_behavior_item, hj, if_true] at IH ⊢
      split at IH <;> split <;> simp_all
    · have hij : i ≠ j := by
        intro hh; rw [hh] at h; exact hj h
      rw [Bool.not_eq_true] at hj
      simp only [get_behavior_report, get_behavior_item, hj,
        Bool.false_eq_true, if_false] at IH ⊢
      cases hapi : api j <;>
        simp only [hapi, execute_request] at IH ⊢
      · split at IH <;> split <;> simp_all
      · simp_all [hij]
      · simp_all [hij]

/-- Per-iteration event counts of the behavior worker: exactly one
completion mark, no queue claim inside the body (the claim is emitted
by the loop itself). -/
lemma countP_get_behavior_item (fs : Fs) (api : Ident → BehResp)
    (wr rd : Ident → Bool) (i : Ident) :
    (get_behavior_item fs api wr rd i).events.countP Event.isBehaviorDone = 1
    ∧ (get_behavior_item fs api wr rd i).events.countP Event.isBehaviorGet
        = 0 := by
  rw [get_behavior_item]
  split
  · split <;>
      simp [List.countP_cons, Event.isBehaviorDone, Event.isBehaviorGet]
  · cases api i <;> simp only [execute_request]
    · split <;>
        simp [List.countP_cons, Event.isBehaviorDone, Event.isBehaviorGet]
    · simp [List.countP_cons, Event.isBehaviorDone, Event.isBehaviorGet]
    · simp [List.countP_cons, Event.isBehaviorDone, Event.isBehaviorGet]

/-- The behavior worker claims and marks done exactly one event pair
per queued item: it never aborts early, whatever the responses are. -/
lemma count_get_behavior_report (api : Ident → BehResp)
    (wr rd : Ident → Bool) :
    ∀ (qs : List Ident) (fs : Fs),
      (get_behavior_report fs api wr rd qs).trace.countP Event.isBehaviorGet
          = qs.length
      ∧ (get_behavior_report fs api wr rd qs).trace.countP
            Event.isBehaviorDone = qs.length
  | [], fs => by
    simp [get_behavior_report, Event.isBehaviorGet, Event.isBehaviorDone]
  | i :: rest, fs => by
    have hs := countP_get_behavior_item fs api wr rd i
    have IH := count_get_behavior_report api wr rd rest
      (get_behavior_item fs api wr rd i).fs
    simp only [get_behavior_report, List.countP_cons, List.countP_append,
      List.length_cons]
    rw [hs.1, hs.2, IH.1, IH.2]
    simp only [Event.isBehaviorGet, Event.isBehaviorDone]
    constructor <;> simp <;> omega

/-- The drain loop of `get_sample_info` performs no network fetch. -/
lemma countP_drain_isObjFetch :
    ∀ rest : List Ident,
      (rest.foldr
        (fun j acc => Event.getItem .infoQ j :: Event.taskDone .infoQ j :: acc)
        []).countP Event.isObjFetch = 0
  | [] => rfl
  | j :: rest => by
    simp [List.countP_cons, Event.isObjFetch, countP_drain_isObjFetch rest]

/-! ## Claim theorems -/

/-- Claim C1 (code_bug evidence): the mark-done discipline is violated
on two control-flow paths.  In `get_sample_info`, a `NotFoundError`
(skip-class) makes the body execute `continue` before reaching
`info_queue.task_done()`: the claimed item "a" is never marked done.
In `get_sample`, a `vt.error.APIError` raised by the download is not
caught: the claimed item "b" is never marked done either.  In both
runs the item was taken off the queue, so `join()` on that queue can
never return. -/
theorem C1_missing_task_done :
    (Event.getItem .infoQ idA ∈ (get_sample_info ⟨[]⟩ c1InfoApi [idA]).1.trace
      ∧ Event.taskDone .infoQ idA ∉
          (get_sample_info ⟨[]⟩ c1InfoApi [idA]).1.trace)
    ∧ (Event.getItem .sampleQ idB ∈ (get_sample ⟨[]⟩ c1DlApi [idB]).trace
      ∧ Event.taskDone .sampleQ idB ∉ (get_sample ⟨[]⟩ c1DlApi [idB]).trace)
    := by decide

/-- Claim C3, counterexample: a Fatal-class failure (authentication)
during the behavior-report fetch for item "a" does NOT abort the
behavior stage — the worker continues, fetches and fully processes the
next item "b" from the same queue, because `execute_request` maps every
`vt.error.APIError` to `None`. -/
theorem C3_counterexample :
    c3Api idA = .apiErr .authFail ∧ (ApiCode.authFail).isFatal = true
    ∧ Event.behaviorFetch idB ∈
        (get_behavior_report ⟨[]⟩ c3Api allTrue allTrue [idA, idB]).trace
    ∧ Event.taskDone .behaviorQ idB ∈
        (get_behavior_report ⟨[]⟩ c3Api allTrue allTrue [idA, idB]).trace
    := by decide

/-- Claim C4, counterexample: the claimed acceptance condition fails in
two independent ways.  The three patterns are only anchored at the
start of the line (`re.match`), so the line of 32 hex characters
followed by "zz" — which does not consist of exactly 32, 40 or 64 hex
characters — is accepted by the Batch Loader and IS enqueued into the
Info queue.  And the digit escape of the patterns matches any Unicode
decimal digit, so the line of 32 Arabic-Indic digits — which contains
no hexadecimal character at all — is accepted and enqueued as well. -/
theorem C4_counterexample :
    (acceptsLine c4Line = true ∧ specAcceptsC4 c4Line = false
      ∧ infoEnqueued [c4Line] = [c4Line])
    ∧ (acceptsLine arLine = true ∧ specAcceptsC4 arLine = false
      ∧ infoEnqueued [arLine] = [arLine]) := by decide

/-- Claim C6, counterexample: on a run whose iteration yields one File
result and completes non-fatally, the Heartbeat task is the very FIRST
event — started before the iteration, not after it — and no
cancellation of the heartbeat task ever appears in the trace: the
`tasks` list that is cancelled holds only worker tasks, so the monitor
survives the stage. -/
theorem C6_counterexample :
    (search c6Cfg [c6Obj] none).head? = some .heartbeatStart
    ∧ (search c6Cfg [c6Obj] none).get? 1 = some (.logArtifact idA)
    ∧ Event.cancelTask .heartbeatTask ∉ search c6Cfg [c6Obj] none := by
  decide

/-- Claim C7, counterexample: the info worker issues the network object
lookup for "a" even though the target file info_dir/a of its role
already exists on disk — the source performs the lookup
unconditionally, before `display_information` checks the cache. -/
theorem C7_counterexample :
    c7Fs.isFile .infoDir idA = true
    ∧ Event.objectFetch idA ∈ (get_sample_info c7Fs okInfoApi [idA]).1.trace
    := by decide

/-- Claim C9 (code_bug evidence): both the sample worker and the
behavior worker claim items with a separate emptiness test followed by
a get — `while not queue.empty(): item = await queue.get()` — not with
a single atomic claim operation: the first two events of each loop
iteration are the emptiness test and then the dequeue. -/
theorem C9_check_then_get :
    ((get_sample ⟨[]⟩ okDlApi [idA]).trace.take 2
      = [.emptyTest .sampleQ false, .getItem .sampleQ idA])
    ∧ ((get_behavior_report ⟨[]⟩ okBehApi allTrue allTrue [idA]).trace.take 2
      = [.emptyTest .behaviorQ false, .getItem .behaviorQ idA]) := by
  decide

/-- Claim C2: if the Remote Catalog raises a Fatal-class error while
the Search Driver iterates the result set, the driver returns without
spawning any worker task, and when the error hits before the first
result was yielded, nothing was put into the Sample or Behavior
queues. -/
theorem C2_fatal_abort (cfg : SearchCfg) (results : List SearchObj)
    (c : ApiCode) (hfatal : c.isFatal = true) :
    (∀ t : TaskRef, Event.spawnTask t ∉ search cfg results (some c))
    ∧ (results = [] → ∀ (q : QueueId) (i : Ident),
        Event.putItem q i ∉ search cfg results (some c)) := by
  constructor
  · intro t h
    simp only [search, List.append_nil, List.mem_cons] at h
    rcases h with h | h
    · simp at h
    · have := mem_searchIter_shape h
      simp [Event.isIterEvent] at this
  · rintro rfl q i h
    simp [search, searchIter] at h

def c2Cfg : SearchCfg := ⟨true, true, 2⟩

theorem C2_fatal_abort_witness :
    (ApiCode.authFail.isFatal = true)
    ∧ ((∀ t : TaskRef,
          Event.spawnTask t ∉ search c2Cfg [] (some .authFail))
      ∧ (([] : List SearchObj) = [] → ∀ (q : QueueId) (i : Ident),
          Event.putItem q i ∉ search c2Cfg [] (some .authFail))) :=
  ⟨by decide, C2_fatal_abort c2Cfg [] .authFail (by decide)⟩

def c3InfoApi : Ident → InfoResp := fun _ => .apiErr .authFail

/-- Claim C3, amended: a Fatal-class failure aborts the info-resolution
stage — the worker performs a single object lookup, drains the rest of
the queue and returns without fetching any further item — but the
behavior worker never aborts: `execute_request` maps every API error,
fatal ones included, to a missing report, and the worker claims and
marks done every queued item and continues to the next. -/
theorem C3_amended (fs fs2 : Fs) (iapi : Ident → InfoResp)
    (bapi : Ident → BehResp) (wr rd : Ident → Bool) (i : Ident)
    (rest qs : List Ident) (c : ApiCode)
    (hc : iapi i = .apiErr c) (hfatal : c.isFatal = true) :
    ((get_sample_info fs iapi (i :: rest)).1.trace.countP
        Event.isObjFetch = 1)
    ∧ ((get_behavior_report fs2 bapi wr rd qs).trace.countP
          Event.isBehaviorGet = qs.length
      ∧ (get_behavior_report fs2 bapi wr rd qs).trace.countP
          Event.isBehaviorDone = qs.length) := by
  refine ⟨?_, count_get_behavior_report bapi wr rd qs fs2⟩
  cases c
  · simp [ApiCode.isFatal] at hfatal
  · simp only [get_sample_info, hc]
    simp [List.countP_cons, List.countP_append, Event.isObjFetch,
      countP_drain_isObjFetch]
  · simp only [get_sample_info, hc]
    simp [List.countP_cons, List.countP_append, Event.isObjFetch,
      countP_drain_isObjFetch]
  · simp [ApiCode.isFatal] at hfatal

theorem C3_amended_witness :
    (c3InfoApi idA = .apiErr .authFail)
    ∧ (ApiCode.authFail.isFatal = true)
    ∧ (((get_sample_info ⟨[]⟩ c3InfoApi [idA, idB]).1.trace.countP
          Event.isObjFetch = 1)
      ∧ ((get_behavior_report ⟨[]⟩ c3Api allTrue allTrue
            [idA, idB]).trace.countP Event.isBehaviorGet = [idA, idB].length
        ∧ (get_behavior_report ⟨[]⟩ c3Api allTrue allTrue
            [idA, idB]).trace.countP Event.isBehaviorDone
            = [idA, idB].length)) :=
  ⟨rfl, rfl,
    C3_amended ⟨[]⟩ ⟨[]⟩ c3InfoApi c3Api allTrue allTrue idA [idB]
      [idA, idB] .authFail rfl rfl⟩

/-- Claim C4, amended: after stripping leading and trailing newline and
space characters, a line is accepted iff it has at least 32 characters
and its first 32 characters are all in the pattern class — the letters
a-f or A-F, or any Unicode decimal digit (the digit escape is not
limited to ASCII) — so exact 32-, 40- and 64-character hex hashes are
accepted, but so is any line with such a 32-character class prefix,
because the patterns anchor only at the start; a line that fails this
test is silently ignored and never enqueued. -/
theorem C4_amended (l : List Char) (lines : List (List Char)) :
    (acceptsLine l = true
      ↔ 32 ≤ (pyStrip l).length
        ∧ ((pyStrip l).take 32).all isHashChar = true)
    ∧ (acceptsLine l = false → pyStrip l ∉ infoEnqueued lines) := by
  refine ⟨acceptsStr_iff (pyStrip l), ?_⟩
  intro h hmem
  have hacc := mem_infoEnqueued_accepts hmem
  rw [acceptsLine] at h
  rw [h] at hacc
  exact Bool.false_ne_true hacc

theorem C4_amended_witness :
    (acceptsLine ("zz".toList) = false)
    ∧ pyStrip ("zz".toList) ∉ infoEnqueued [c4Line] :=
  ⟨by decide, (C4_amended ("zz".toList) [c4Line]).2 (by decide)⟩

/-- Claim C5: when samples_dir/id already exists, the sample worker
performs no download for that identifier — neither in that iteration
nor anywhere in the rest of the run — and leaves the filesystem
unchanged; and after a successful first download, reprocessing the same
identifier is a cache hit that changes nothing, so a second run is
idempotent. -/
theorem C5_idempotent (fs : Fs) (api : Ident → DlOutcome) (i : Ident)
    (qs : List Ident) :
    (fs.isFile .samplesDir i = true →
      ((get_sample_item fs api i).fs = fs
        ∧ Event.downloadFetch i ∉ (get_sample_item fs api i).events
        ∧ Event.downloadFetch i ∉ (get_sample fs api qs).trace))
    ∧ (fs.isFile .samplesDir i = false → api i = .ok →
      ((get_sample_item fs api i).fs.isFile .samplesDir i = true
        ∧ (get_sample_item (get_sample_item fs api i).fs api i).fs
            = (get_sample_item fs api i).fs
        ∧ Event.downloadFetch i ∉
            (get_sample_item (get_sample_item fs api i).fs api i).events))
    := by
  constructor
  · intro h
    refine ⟨?_, ?_, downloadFetch_not_mem_get_sample qs fs h⟩
    · simp [get_sample_item, h]
    · simp [get_sample_item, h]
  · intro h1 h2
    have hadd : ((fs.add .samplesDir i .full).isFile .samplesDir i) = true := by
      simp [Fs.isFile, Fs.add]
    simp only [get_sample_item, h1, Bool.false_eq_true, if_false, h2]
    exact ⟨hadd, by simp [get_sample_item, hadd], by simp [get_sample_item, hadd]⟩

def c5Fs : Fs := ⟨[(.samplesDir, idA, .full)]⟩

theorem C5_idempotent_witness :
    (((get_sample_item c5Fs okDlApi idA).fs = c5Fs
      ∧ Event.downloadFetch idA ∉ (get_sample_item c5Fs okDlApi idA).events
      ∧ Event.downloadFetch idA ∉ (get_sample c5Fs okDlApi [idA, idB]).trace))
    ∧ (((get_sample_item ⟨[]⟩ okDlApi idA).fs.isFile .samplesDir idA = true
      ∧ (get_sample_item (get_sample_item ⟨[]⟩ okDlApi idA).fs okDlApi
          idA).fs = (get_sample_item ⟨[]⟩ okDlApi idA).fs
      ∧ Event.downloadFetch idA ∉
          (get_sample_item (get_sample_item ⟨[]⟩ okDlApi idA).fs okDlApi
            idA).events)) :=
  ⟨(C5_idempotent c5Fs okDlApi idA [idA, idB]).1 (by decide),
    (C5_idempotent ⟨[]⟩ okDlApi idA []).2 (by decide) rfl⟩

/-- Claim C6, amended: the Search Driver starts the Heartbeat Monitor
BEFORE the result iteration begins (its start is the first event of
every run, fatal or not); after both queues join it cancels every
worker task it spawned, but the monitor task is not in the cancelled
task list and is never cancelled by the driver. -/
theorem C6_amended (cfg : SearchCfg) (results : List SearchObj)
    (stopErr : Option ApiCode) :
    (search cfg results stopErr).head? = some .heartbeatStart
    ∧ Event.cancelTask .heartbeatTask ∉ search cfg results stopErr
    ∧ (∀ t : TaskRef, Event.spawnTask t ∈ search cfg results stopErr →
        Event.cancelTask t ∈ search cfg results stopErr) := by
  refine ⟨rfl, ?_, ?_⟩
  · intro h
    cases stopErr with
    | some c =>
      simp only [search, List.mem_cons, List.mem_append,
        List.append_nil] at h
      rcases h with h | h
      · simp at h
      · have := mem_searchIter_shape h
        simp [Event.isIterEvent] at this
    | none =>
      simp only [search, List.mem_cons, List.mem_append, List.mem_map,
        List.mem_singleton] at h
      rcases h with (h | h) | (⟨t, _, ht⟩ | h | h | h) | ⟨t, hmem, ht⟩
      · simp at h
      · have := mem_searchIter_shape h
        simp [Event.isIterEvent] at this
      · simp at ht
      · simp at h
      · simp at h
      · simp at h
      · have hth : t = TaskRef.heartbeatTask := by simpa using ht
        rw [hth] at hmem
        exact heartbeat_not_mem_workerTasksFor cfg _ hmem
  · intro t h
    cases stopErr with
    | some c =>
      simp only [search, List.mem_cons, List.mem_append,
        List.append_nil] at h
      rcases h with h | h
      · simp at h
      · have := mem_searchIter_shape h
        simp [Event.isIterEvent] at this
    | none =>
      simp only [search, List.mem_cons, List.mem_append, List.mem_map,
        List.mem_singleton] at h
      rcases h with (h | h) | (⟨u, hmem, hu⟩ | h | h | h) | ⟨u, _, hu⟩
      · simp at h
      · have := mem_searchIter_shape h
        simp [Event.isIterEvent] at this
      · have hut : u = t := by simpa using hu
        rw [hut] at hmem
        simp only [search, List.mem_cons, List.mem_append, List.mem_map,
          List.mem_singleton]
        right
        right
        exact ⟨t, hmem, rfl⟩
      · simp at h
      · simp at h
      · simp at h
      · simp at hu

def c6wCfg : SearchCfg := ⟨true, true, 1⟩

theorem C6_amended_witness :
    ((search c6wCfg [c6Obj] none).head? = some .heartbeatStart)
    ∧ Event.cancelTask (.workerTask .sampleRole 0)
        ∈ search c6wCfg [c6Obj] none :=
  ⟨(C6_amended c6wCfg [c6Obj] none).1,
    (C6_amended c6wCfg [c6Obj] none).2.2 (.workerTask .sampleRole 0)
      (by decide)⟩

/-- Claim C7, amended: for the sample and behavior roles the Disk Cache
check is the first action of each loop-iteration body and no network
fetch is ever issued for an identifier whose target file already exists
in the role directory; the info role, however, always performs the
object lookup for the item it claims — even when info_dir/id already
exists — and only the summary rewrite is skipped. -/
theorem C7_amended (fs : Fs) (api : Ident → DlOutcome)
    (bapi : Ident → BehResp) (iapi : Ident → InfoResp)
    (wr rd : Ident → Bool) (qs rest : List Ident) (i : Ident) :
    (fs.isFile .samplesDir i = true →
      Event.downloadFetch i ∉ (get_sample fs api qs).trace)
    ∧ (fs.isFile .reportsDir i = true →
      Event.behaviorFetch i ∉ (get_behavior_report fs bapi wr rd qs).trace)
    ∧ (get_sample_item fs api i).events.head?
        = some (.cacheCheck .samplesDir i (fs.isFile .samplesDir i))
    ∧ (get_behavior_item fs bapi wr rd i).events.head?
        = some (.cacheCheck .reportsDir i (fs.isFile .reportsDir i))
    ∧ Event.objectFetch i ∈ (get_sample_info fs iapi (i :: rest)).1.trace
    := by
  refine ⟨fun h => downloadFetch_not_mem_get_sample qs fs h,
    fun h => behaviorFetch_not_mem_get_behavior qs fs h, ?_, ?_, ?_⟩
  · by_cases h : fs.isFile .samplesDir i = true
    · simp [get_sample_item, h]
    · rw [Bool.not_eq_true] at h
      cases hapi : api i <;> simp [get_sample_item, h, hapi]
  · by_cases h : fs.isFile .reportsDir i = true
    · simp only [get_behavior_item, h, if_true]
      split <;> simp [h]
    · rw [Bool.not_eq_true] at h
      cases hapi : bapi i <;>
        simp only [get_behavior_item, h, Bool.false_eq_true, if_false,
          hapi, execute_request] <;>
        first
          | (split <;> simp [h])
          | simp [h]
  · cases hapi : iapi i with
    | okObj => simp [get_sample_info, hapi]
    | apiErr c =>
      cases c <;> simp [get_sample_info, hapi]

theorem C7_amended_witness :
    (Event.downloadFetch idA ∉ (get_sample c5Fs okDlApi [idA, idB]).trace)
    ∧ (Event.behaviorFetch idA ∉
        (get_behavior_report ⟨[(.reportsDir, idA, .full)]⟩ okBehApi allTrue
          allTrue [idA, idB]).trace)
    ∧ ((get_sample_item c5Fs okDlApi idA).events.head?
        = some (.cacheCheck .samplesDir idA
            (c5Fs.isFile .samplesDir idA)))
    ∧ (Event.objectFetch idA ∈
        (get_sample_info c7Fs okInfoApi (idA :: [])).1.trace) :=
  ⟨(C7_amended c5Fs okDlApi okBehApi okInfoApi allTrue allTrue [idA, idB]
      [] idA).1 (by decide),
    (C7_amended ⟨[(.reportsDir, idA, .full)]⟩ okDlApi okBehApi okInfoApi
      allTrue allTrue [idA, idB] [] idA).2.1 (by decide),
    (C7_amended c5Fs okDlApi okBehApi okInfoApi allTrue allTrue [idA, idB]
      [] idA).2.2.1,
    (C7_amended c7Fs okDlApi okBehApi okInfoApi allTrue allTrue [idA, idB]
      [] idA).2.2.2.2⟩

/-- Claim C8: the Batch Loader enqueues exactly the distinct accepted
identifiers, keeping the first occurrence of each (the enqueue loop
equals the first-occurrence deduplication of the accepted sequence),
with no identifier enqueued twice, and the number of enqueued items
equals the number of distinct accepted identifiers. -/
theorem C8_dedup (lines : List (List Char)) :
    infoEnqueued lines = dedupFirst (acceptedSeq lines)
    ∧ (infoEnqueued lines).Nodup
    ∧ (infoEnqueued lines).length = (acceptedSeq lines).dedup.length := by
  refine ⟨infoEnqueued_eq lines, ?_, ?_⟩
  · rw [infoEnqueued_eq]
    exact nodup_dedupFirst _
  · rw [infoEnqueued_eq]
    have h1 : (dedupFirst (acceptedSeq lines)).toFinset
        = (acceptedSeq lines).toFinset := by
      ext x
      simp [List.mem_toFinset, mem_dedupFirst]
    have h2 : (acceptedSeq lines).dedup.toFinset
        = (acceptedSeq lines).toFinset := by
      ext x
      simp [List.mem_toFinset, List.mem_dedup]
    rw [← List.toFinset_card_of_nodup (nodup_dedupFirst _),
      ← List.toFinset_card_of_nodup (List.nodup_dedup _), h1, h2]

/-- Claim C10: when the download for id raises an uncaught API error
after the output file has been opened, the worker aborts leaving an
empty file at samples_dir/id, the item is never marked done, and every
later invocation for the same identifier sees the leftover file as a
cache hit: no download is re-attempted and the empty file stays. -/
theorem C10_partial_file (fs : Fs) (api : Ident → DlOutcome) (i : Ident)
    (rest : List Ident) (h1 : fs.isFile .samplesDir i = false)
    (h2 : api i = .apiErr) :
    ((get_sample fs api (i :: rest)).fs.isFile .samplesDir i = true)
    ∧ ((get_sample fs api (i :: rest)).fs.content .samplesDir i
        = some .empty)
    ∧ (Event.taskDone .sampleQ i ∉ (get_sample fs api (i :: rest)).trace)
    ∧ (Event.downloadFetch i ∉
        (get_sample_item (get_sample fs api (i :: rest)).fs api i).events)
    ∧ ((get_sample_item (get_sample fs api (i :: rest)).fs api i).fs
        = (get_sample fs api (i :: rest)).fs) := by
  have hrun : get_sample fs api (i :: rest)
      = ⟨[.emptyTest .sampleQ false, .getItem .sampleQ i,
          .cacheCheck .samplesDir i false, .openWrite .samplesDir i,
          .downloadFetch i], fs.add .samplesDir i .empty⟩ := by
    simp [get_sample, get_sample_item, h1, h2]
  have hisf : ((fs.add .samplesDir i .empty).isFile .samplesDir i) = true := by
    simp [Fs.isFile, Fs.add]
  rw [hrun]
  refine ⟨hisf, ?_, ?_, ?_, ?_⟩
  · simp [Fs.content, Fs.add, List.find?]
  · simp
  · simp [get_sample_item, hisf]
  · simp [get_sample_item, hisf]

theorem C10_partial_file_witness :
    (Fs.isFile ⟨[]⟩ .samplesDir idA = false) ∧ (c1DlApi idA = .apiErr)
    ∧ (((get_sample ⟨[]⟩ c1DlApi [idA]).fs.isFile .samplesDir idA = true)
      ∧ ((get_sample ⟨[]⟩ c1DlApi [idA]).fs.content .samplesDir idA
          = some .empty)
      ∧ (Event.taskDone .sampleQ idA ∉ (get_sample ⟨[]⟩ c1DlApi [idA]).trace)
      ∧ (Event.downloadFetch idA ∉
          (get_sample_item (get_sample ⟨[]⟩ c1DlApi [idA]).fs c1DlApi
            idA).events)
      ∧ ((get_sample_item (get_sample ⟨[]⟩ c1DlApi [idA]).fs c1DlApi
            idA).fs = (get_sample ⟨[]⟩ c1DlApi [idA]).fs)) :=
  ⟨by decide, rfl, C10_partial_file ⟨[]⟩ c1DlApi idA [] (by decide) rfl⟩

end VtSearch
